import Mathlib

/-!
Shallow embedding of the cloud-price-exporter core (Go) in Lean 4, together
with theorems settling the frozen specification claims.

Modelling conventions:
* Go float64 prices are modelled by ℚ (exact rational arithmetic); the float
  constant `7.2` is the rational 36/5.
* Go machine integers (int32/int64) are modelled by ℤ; Go's integer division
  truncates toward zero, which is `Int.tdiv`.
* Go maps used as lookup tables are modelled by association lists
  (`List (key × value)`); missing keys yield the Go zero value where the
  source relies on that.
* Fallible code returns `Except`/`Option`.
* Network upstreams are modelled as the (finite) sequence of responses they
  return, consumed in order by the paginating loops.
-/

namespace CloudPrice

/-- ScrapeResult record shape (exporter package), Go zero values as defaults. -/
structure ScrapeResult where
  Name               : String := ""
  Value              : ℚ := 0
  Region             : String := ""
  AvailabilityZone   : String := ""
  InstanceType       : String := ""
  InstanceLifecycle  : String := ""
  ProductDescription : String := ""
  OperatingSystem    : String := ""
  SavingPlanOption   : String := ""
  SavingPlanDuration : ℤ := 0
  SavingPlanType     : String := ""
  Memory             : String := ""
  VCpu               : String := ""
  deriving Repr, DecidableEq

/-- Instance metadata: memory in MiB (int64) and vCPU count (int32). -/
structure Instance where
  Memory : ℤ
  VCpu   : ℤ
  deriving Repr, DecidableEq

/-- CpuMemRelation = 7.2: CPU-cost = 7.2 × memory-GB-cost. -/
def CpuMemRelation : ℚ := 7.2

/-- The InstanceStore's map from instance type to Instance, as an association list. -/
def InstanceStore := List (String × Instance)

/-- Map lookup `s.instances[instanceType]` with presence flag. -/
def storeFind (s : InstanceStore) (instanceType : String) : Option Instance :=
  List.lookup instanceType s

/-- GetMemory: memory (MiB) of the named instance type as a string
(Go map miss yields the zero value, hence "0"). -/
def GetMemory (s : InstanceStore) (instanceType : String) : String :=
  toString (((storeFind s instanceType).map Instance.Memory).getD 0)

/-- GetVCpu: vCPU count of the named instance type as a string. -/
def GetVCpu (s : InstanceStore) (instanceType : String) : String :=
  toString (((storeFind s instanceType).map Instance.VCpu).getD 0)

/-- GetNormalizedCost (InstanceStore method): returns (vcpuCost, memoryCost).
Mirrors the source: unknown type → (0,0); memory GB = MiB tdiv 1024 (Go
integer division truncates toward zero); zero denominator → (0,0). -/
def GetNormalizedCost (s : InstanceStore) (value : ℚ) (instanceType : String) : ℚ × ℚ :=
  match storeFind s instanceType with
  | none => (0, 0)
  | some inst =>
    let vcpu := inst.VCpu
    let memory := inst.Memory.tdiv 1024
    let denom := CpuMemRelation * (vcpu : ℚ) + (memory : ℚ)
    if denom = 0 then (0, 0)
    else
      let memoryCost := value / denom
      let vcpuCost := CpuMemRelation * memoryCost
      (vcpuCost, memoryCost)

/-- SecondsToYears: converts a duration in seconds to years; only a whole-year
quotient of 1 or 3 is accepted. -/
def SecondsToYears (seconds : ℤ) : Except String ℤ :=
  let secondsPerYear : ℤ := 31536000
  let years := seconds.tdiv secondsPerYear
  if years ≠ 1 ∧ years ≠ 3 then
    .error "unexpected savings plan duration"
  else
    .ok years

/-- Value of a digit string; `none` if any character is not a digit
(the empty list yields `some 0` and callers require nonemptiness). -/
def digitsVal (cs : List Char) : Option ℕ :=
  cs.foldl
    (fun acc c => acc.bind (fun n => if c.isDigit then some (10 * n + (c.toNat - 48)) else none))
    (some 0)

/-- Unsigned decimal: digits, optionally a dot and more digits, at least
one digit overall, nothing else. -/
def parseDecChars (body : List Char) : Option ℚ :=
  let ip := body.takeWhile (fun c => c ≠ '.')
  match body.dropWhile (fun c => c ≠ '.') with
  | [] =>
    if ip.isEmpty then none
    else (digitsVal ip).map (fun n => (n : ℚ))
  | _ :: fp =>
    if fp.contains '.' then none
    else if ip.isEmpty && fp.isEmpty then none
    else do
      let n ← if ip.isEmpty then some 0 else digitsVal ip
      let f ← if fp.isEmpty then some 0 else digitsVal fp
      pure ((n : ℚ) + (f : ℚ) / (10 : ℚ) ^ fp.length)

/-- Model of strconv.ParseFloat restricted to plain decimal notation
(optional sign, digits, optional fractional part), returning an exact ℚ.
Inputs outside this fragment (exponents, hex, inf/NaN) are not used by the
claims and are treated as parse failures. -/
def parseDecimal (s : String) : Option ℚ :=
  match s.toList with
  | '-' :: t => (parseDecChars t).map (fun q => -q)
  | '+' :: t => parseDecChars t
  | t => parseDecChars t

/-- contains (exporter package): linear membership test on a string slice. -/
def contains (elems : List String) (v : String) : Bool :=
  elems.any (fun s => v = s)

/-- isMatchAny: does the text match any regex of the list? Regexes are
modelled extensionally as boolean predicates on strings. -/
def isMatchAny (regexList : List (String → Bool)) (text : String) : Bool :=
  regexList.any (fun regex => regex text)

/-- Does the first char list start with the second? -/
def charsStartWith : List Char → List Char → Bool
  | _, [] => true
  | [], _ :: _ => false
  | c :: cs, p :: ps => c = p && charsStartWith cs ps

/-- Does the first char list contain the second as a contiguous run? -/
def charsContain : List Char → List Char → Bool
  | [], pat => pat.isEmpty
  | c :: cs, pat => charsStartWith (c :: cs) pat || charsContain cs pat

/-- strings.Contains: substring test on the underlying characters. -/
def strContains (s pat : String) : Bool :=
  charsContain s.toList pat.toList

/-- One entry of DescribeSpotPriceHistory output. -/
structure SpotPrice where
  InstanceType       : String := ""
  SpotPrice          : String := ""
  AvailabilityZone   : String := ""
  ProductDescription : String := ""
  deriving Repr, DecidableEq

/-- Per-entry processing of one spot price history page (inner loop of
GetSpotPricing): regex filter, price parse (failure tallies an error and
skips the entry), then the three-record emission. Returns (records, errors). -/
def processSpotPage (region : String) (instanceRegexes : List (String → Bool))
    (instances : InstanceStore) : List SpotPrice → List ScrapeResult × ℕ
  | [] => ([], 0)
  | price :: rest =>
    if ¬ isMatchAny instanceRegexes price.InstanceType then
      processSpotPage region instanceRegexes instances rest
    else
      match parseDecimal price.SpotPrice with
      | none =>
        let next := processSpotPage region instanceRegexes instances rest
        (next.1, next.2 + 1)
      | some value =>
        let nc := GetNormalizedCost instances value price.InstanceType
        let vcpu := nc.1
        let memory := nc.2
        let recs : List ScrapeResult :=
          [{ Name := "ec2", Value := value, Region := region,
             AvailabilityZone := price.AvailabilityZone,
             InstanceType := price.InstanceType, InstanceLifecycle := "spot",
             ProductDescription := price.ProductDescription,
             Memory := GetMemory instances price.InstanceType,
             VCpu := GetVCpu instances price.InstanceType },
           { Name := "ec2_memory", Value := memory, Region := region,
             AvailabilityZone := price.AvailabilityZone,
             InstanceType := price.InstanceType, InstanceLifecycle := "spot" },
           { Name := "ec2_vcpu", Value := vcpu, Region := region,
             AvailabilityZone := price.AvailabilityZone,
             InstanceType := price.InstanceType, InstanceLifecycle := "spot" }]
        let next := processSpotPage region instanceRegexes instances rest
        (recs ++ next.1, next.2)

/-- One savings-plan offering rate, with the properties already converted
to the savingPlanProperties fields used by the emission code. -/
structure SavingsPlanRate where
  Rate               : String := ""
  DurationSeconds    : ℤ := 0
  PaymentOption      : String := ""
  PlanType           : String := ""
  InstanceType       : String := ""
  ProductDescription : String := ""
  deriving Repr, DecidableEq

/-- Per-plan processing loop of getSavingPlanPricing (savingplan.go):
regex filter, rate parse (a failure tallies an error but — as in the
source — does NOT skip the entry; the Go zero value 0 is used as the
price), duration conversion (failure tallies an error and skips), then
the three-record emission. Returns (records, errors). -/
def processSavingPlans (region : String) (instanceRegexes : List (String → Bool))
    (instances : InstanceStore) : List SavingsPlanRate → List ScrapeResult × ℕ
  | [] => ([], 0)
  | plan :: rest =>
    if ¬ isMatchAny instanceRegexes plan.InstanceType then
      processSavingPlans region instanceRegexes instances rest
    else
      let parsed := parseDecimal plan.Rate
      let value := parsed.getD 0
      let parseErr : ℕ := if parsed.isNone then 1 else 0
      match SecondsToYears plan.DurationSeconds with
      | .error _ =>
        let next := processSavingPlans region instanceRegexes instances rest
        (next.1, parseErr + 1 + next.2)
      | .ok years =>
        let nc := GetNormalizedCost instances value plan.InstanceType
        let vcpu := nc.1
        let memory := nc.2
        let recs : List ScrapeResult :=
          [{ Name := "ec2", Value := value, Region := region,
             InstanceType := plan.InstanceType, InstanceLifecycle := "ondemand",
             ProductDescription := plan.ProductDescription,
             SavingPlanOption := plan.PaymentOption,
             SavingPlanDuration := years, SavingPlanType := plan.PlanType,
             Memory := GetMemory instances plan.InstanceType,
             VCpu := GetVCpu instances plan.InstanceType },
           { Name := "ec2_memory", Value := memory, Region := region,
             InstanceType := plan.InstanceType, InstanceLifecycle := "ondemand",
             SavingPlanOption := plan.PaymentOption,
             SavingPlanDuration := years, SavingPlanType := plan.PlanType },
           { Name := "ec2_vcpu", Value := vcpu, Region := region,
             InstanceType := plan.InstanceType, InstanceLifecycle := "ondemand",
             SavingPlanOption := plan.PaymentOption,
             SavingPlanDuration := years, SavingPlanType := plan.PlanType }]
        let next := processSavingPlans region instanceRegexes instances rest
        (recs ++ next.1, parseErr + next.2)

/-- One DescribeSavingsPlansOfferingRates response page. `NextToken = none`
models a nil token; `some ""` models an empty-string token. -/
structure SPResponse where
  SearchResults : List SavingsPlanRate := []
  NextToken     : Option String := none
  deriving Repr, DecidableEq

/-- The pagination loop of getSavingPlanPricing over the upstream's
response sequence. A fetch error tallies an error and breaks (the nil
response is never dereferenced); a nil or empty NextToken breaks; a
non-empty token causes one further fetch. Returns
(accumulated rates, fetch count, errors). -/
def fetchSavingPlanPages : List (Except Unit SPResponse) → List SavingsPlanRate × ℕ × ℕ
  | [] => ([], 0, 0)
  | .error _ :: _ => ([], 1, 1)
  | .ok resp :: rest =>
    match resp.NextToken with
    | none => (resp.SearchResults, 1, 0)
    | some t =>
      if t = "" then (resp.SearchResults, 1, 0)
      else
        let next := fetchSavingPlanPages rest
        (resp.SearchResults ++ next.1, 1 + next.2.1, next.2.2)

/-- getSavingPlanPricing end to end: paginate, then process the
accumulated rate list. Returns (records, errors). -/
def getSavingPlanPricing (region : String) (instanceRegexes : List (String → Bool))
    (instances : InstanceStore) (responses : List (Except Unit SPResponse)) :
    List ScrapeResult × ℕ :=
  let (rates, _, fetchErrs) := fetchSavingPlanPages responses
  let (recs, procErrs) := processSavingPlans region instanceRegexes instances rates
  (recs, fetchErrs + procErrs)

/-- A parsed absolute URL, reduced to the parts the code inspects. -/
structure Link where
  scheme : String := ""
  host   : String := ""
  path   : String := ""
  deriving Repr, DecidableEq

/-- validateNextPageLink: an absent/empty next link (modelled as `none`)
ends pagination; a link whose host or scheme differs from the base URL is
an error; otherwise the link is returned to be followed. (The source also
errors on an unparseable URL string; links here are already structured.) -/
def validateNextPageLink (next : Option Link) (baseURL : Link) : Except String (Option Link) :=
  match next with
  | none => .ok none
  | some u =>
    if u.host ≠ baseURL.host ∨ u.scheme ≠ baseURL.scheme then
      .error "NextPageLink host does not match expected"
    else
      .ok (some u)

/-- One item of an Azure Retail Prices response. -/
structure AzureRetailPriceItem where
  RetailPrice   : ℚ := 0
  ArmSkuName    : String := ""
  ProductName   : String := ""
  MeterName     : String := ""
  UnitOfMeasure : String := ""
  ArmRegionName : String := ""
  deriving Repr, DecidableEq

/-- One page of the Azure Retail Prices API. -/
structure AzureRetailPriceResponse where
  Items        : List AzureRetailPriceItem := []
  NextPageLink : Option Link := none
  deriving Repr, DecidableEq

/-- The per-item drop conditions inside GetVMPrices: keep only hourly,
non-spot/low-priority, positively priced items with a SKU name. -/
def keepAzureItem (item : AzureRetailPriceItem) : Bool :=
  item.UnitOfMeasure = "1 Hour" &&
  ¬ strContains item.MeterName "Spot" &&
  ¬ strContains item.MeterName "Low Priority" &&
  item.RetailPrice > 0 &&
  item.ArmSkuName ≠ ""

/-- GetVMPrices pagination over the upstream's response sequence (the
retry layer is modelled separately by doWithRetry; a `.error` response
models an attempt whose retries were exhausted or whose body failed to
decode, which the source propagates as an error). Returns
(result or error, fetch count, links followed after the first request). -/
def getVMPrices (baseURL : Link) :
    List (Except Unit AzureRetailPriceResponse) →
    Except Unit (List AzureRetailPriceItem) × ℕ × List Link
  | [] => (.ok [], 0, [])
  | .error _ :: _ => (.error (), 1, [])
  | .ok page :: rest =>
    let kept := page.Items.filter keepAzureItem
    match validateNextPageLink page.NextPageLink baseURL with
    | .error _ => (.ok kept, 1, [])
    | .ok none => (.ok kept, 1, [])
    | .ok (some l) =>
      let next := getVMPrices baseURL rest
      (next.1.map (fun items => kept ++ items), 1 + next.2.1, l :: next.2.2)

/-- Outcome of one HTTP attempt: a transport error or a status code. -/
inductive HttpOutcome where
  | transportError : HttpOutcome
  | response (status : ℕ) : HttpOutcome
  deriving Repr, DecidableEq

/-- maxRetries = 3. -/
def maxRetries : ℕ := 3

/-- Is this attempt outcome retried by doWithRetry? (transport errors,
HTTP 429 and HTTP 5xx). -/
def isRetryable : HttpOutcome → Bool
  | .transportError => true
  | .response s => s = 429 || s ≥ 500

/-- The attempt loop of doWithRetry from a given attempt index with the
given attempts remaining; `outcomes n` is what the n-th `client.Do` call
would yield. Returns (final status or error, attempts made, backoff sleeps
in seconds — 2^attempt after each retried failure, as in the source). -/
def doWithRetryAux (outcomes : ℕ → HttpOutcome) : ℕ → ℕ → Except Unit ℕ × ℕ × List ℕ
  | _, 0 => (.error (), 0, [])
  | attempt, r + 1 =>
    match outcomes attempt with
    | .transportError =>
      let next := doWithRetryAux outcomes (attempt + 1) r
      (next.1, next.2.1 + 1, 2 ^ attempt :: next.2.2)
    | .response s =>
      if s = 429 ∨ s ≥ 500 then
        let next := doWithRetryAux outcomes (attempt + 1) r
        (next.1, next.2.1 + 1, 2 ^ attempt :: next.2.2)
      else if s ≠ 200 then (.error (), 1, [])
      else (.ok s, 1, [])

/-- doWithRetry: up to maxRetries attempts with exponential backoff. -/
def doWithRetry (outcomes : ℕ → HttpOutcome) : Except Unit ℕ × ℕ × List ℕ :=
  doWithRetryAux outcomes 0 maxRetries

/-- classifyAzureOS: "Windows" iff the product name contains "Windows". -/
def classifyAzureOS (productName : String) : String :=
  if strContains productName "Windows" then "Windows" else "Linux"

/-- The per-item loop of getAzureOnDemandPricing: an empty regex list
disables the instance-type filter (note the `length > 0` guard in the
source); then OS classification and OS-list membership. -/
def getAzureOnDemandPricing (region : String) (azureInstanceRegexes : List (String → Bool))
    (azureOperatingSystems : List String) :
    List AzureRetailPriceItem → List ScrapeResult
  | [] => []
  | item :: rest =>
    if azureInstanceRegexes.length > 0 ∧ ¬ isMatchAny azureInstanceRegexes item.ArmSkuName then
      getAzureOnDemandPricing region azureInstanceRegexes azureOperatingSystems rest
    else
      let os := classifyAzureOS item.ProductName
      if ¬ contains azureOperatingSystems os then
        getAzureOnDemandPricing region azureInstanceRegexes azureOperatingSystems rest
      else
        { Name := "azure_vm", Value := item.RetailPrice, Region := region,
          InstanceType := item.ArmSkuName, InstanceLifecycle := "ondemand",
          OperatingSystem := os : ScrapeResult }
          :: getAzureOnDemandPricing region azureInstanceRegexes azureOperatingSystems rest

/-- Offer-term code for on-demand terms in the bulk pricing document. -/
def TermOnDemand : String := "JRTCKXETXF"

/-- Price-dimension code for per-hour rates in the bulk pricing document. -/
def TermPerHour : String := "6YS6EN2CT7"

/-- A product entry of the bulk pricing JSON (sku plus attribute map). -/
structure BulkProduct where
  SKU        : String := ""
  Attributes : List (String × String) := []
  deriving Repr, DecidableEq

/-- Pricing details of one price dimension (pricePerUnit map). -/
structure BulkPriceDimension where
  PricePerUnit : List (String × String) := []
  deriving Repr, DecidableEq

/-- One offer term (priceDimensions map). -/
structure BulkOfferTerm where
  PriceDimensions : List (String × BulkPriceDimension) := []
  deriving Repr, DecidableEq

/-- terms.OnDemand of the bulk pricing JSON: sku → termKey → offer term. -/
def BulkOnDemandTerms := List (String × List (String × BulkOfferTerm))

/-- Go map indexing with the string zero value on a miss
(`attrs["capacitystatus"]` etc.). -/
def attr (attrs : List (String × String)) (k : String) : String :=
  (List.lookup k attrs).getD ""

/-- The product loop of the bulk on-demand scraper (GetOnDemandPricing):
attribute filters, OS-set membership, instance-type regex, the silent
skips on missing term/dimension/USD keys, price parse (failure tallies an
error and skips), and the three-record emission per availability zone.
Go iterates the products map in unspecified order; the list order stands
in for one such order. Returns (records, errors). -/
def processBulkProducts (region : String) (operatingSystems : List String)
    (instanceRegexes : List (String → Bool)) (instances : InstanceStore)
    (azs : List String) (terms : BulkOnDemandTerms) :
    List BulkProduct → List ScrapeResult × ℕ
  | [] => ([], 0)
  | product :: rest =>
    let next := processBulkProducts region operatingSystems instanceRegexes instances azs terms rest
    let attrs := product.Attributes
    if attr attrs "capacitystatus" ≠ "Used" then next
    else if attr attrs "tenancy" ≠ "Shared" then next
    else if attr attrs "preInstalledSw" ≠ "NA" then next
    else if ¬ contains operatingSystems (attr attrs "operatingSystem") then next
    else if ¬ isMatchAny instanceRegexes (attr attrs "instanceType") then next
    else
      let skuOnDemand := product.SKU ++ "." ++ TermOnDemand
      let skuOnDemandPerHour := skuOnDemand ++ "." ++ TermPerHour
      match (List.lookup product.SKU terms).bind
              (fun skuTerms => (List.lookup skuOnDemand skuTerms).bind
                (fun offerTerm => (List.lookup skuOnDemandPerHour offerTerm.PriceDimensions).bind
                  (fun dim => List.lookup "USD" dim.PricePerUnit))) with
      | none => next
      | some usdPrice =>
        match parseDecimal usdPrice with
        | none => (next.1, next.2 + 1)
        | some value =>
          let nc := GetNormalizedCost instances value (attr attrs "instanceType")
          let vcpu := nc.1
          let memory := nc.2
          let recs := azs.flatMap (fun az =>
            [{ Name := "ec2", Value := value, Region := region,
               AvailabilityZone := az, InstanceType := attr attrs "instanceType",
               InstanceLifecycle := "ondemand",
               OperatingSystem := attr attrs "operatingSystem",
               ProductDescription := attr attrs "productDescription",
               Memory := GetMemory instances (attr attrs "instanceType"),
               VCpu := GetVCpu instances (attr attrs "instanceType") },
             { Name := "ec2_memory", Value := memory, Region := region,
               AvailabilityZone := az, InstanceType := attr attrs "instanceType",
               InstanceLifecycle := "ondemand" },
             { Name := "ec2_vcpu", Value := vcpu, Region := region,
               AvailabilityZone := az, InstanceType := attr attrs "instanceType",
               InstanceLifecycle := "ondemand" }] )
          (recs ++ next.1, next.2)

/-- Observable actions of one Collect call, in program order. -/
inductive CollectEvent where
  | advanceNext : CollectEvent
  | launchScrape : CollectEvent
  deriving Repr, DecidableEq

/-- Cache-gate state of the Exporter (exporter.go). `cache` is the TTL;
`nextScrape` and call instants share one time unit. -/
structure ExporterState where
  nextScrape   : ℤ
  cache        : ℤ
  records      : List ScrapeResult
  totalScrapes : ℕ
  deriving Repr, DecidableEq

/-- Collect (exporter.go, under the mutex): the gate is
`time.Now().After(e.nextScrape)`, i.e. strictly `nextScrape < now`. When
the gate opens, `nextScrape := now + cache` is assigned BEFORE the scrape
goroutine is launched (both `time.Now()` calls of the body are modelled by
the single instant `now`); the gauges are reset and replaced by the
cycle's output — `cycleOutput` parametrises what the launched cycle
produces, `[]` when every worker fails. Otherwise the call leaves the
state untouched. The event list records the order of the two actions. -/
def Collect (e : ExporterState) (now : ℤ) (cycleOutput : List ScrapeResult) :
    ExporterState × List CollectEvent :=
  if e.nextScrape < now then
    ({ e with nextScrape := now + e.cache,
              records := cycleOutput,
              totalScrapes := e.totalScrapes + 1 },
     [.advanceNext, .launchScrape])
  else (e, [])

/-- Number of scrape cycles a Collect call launched. -/
def countLaunches (evs : List CollectEvent) : ℕ :=
  (evs.filter (fun ev => ev = CollectEvent.launchScrape)).length

/-! ## Shared helper lemmas -/

/-- Truncating division of a small nonnegative integer is zero. -/
lemma tdiv_eq_zero_of_nonneg_lt {a b : ℤ} (h0 : 0 ≤ a) (h : a < b) : a.tdiv b = 0 := by
  obtain ⟨m, rfl⟩ := Int.eq_ofNat_of_zero_le h0
  obtain ⟨n, rfl⟩ := Int.eq_ofNat_of_zero_le (le_of_lt (lt_of_le_of_lt h0 h))
  show Int.tdiv (Int.ofNat m) (Int.ofNat n) = 0
  simp only [Int.tdiv]
  rw [Nat.div_eq_of_lt (by exact_mod_cast h)]
  rfl

/-- Denominator used by GetNormalizedCost for a store entry. -/
def normDenom (inst : Instance) : ℚ :=
  CpuMemRelation * (inst.VCpu : ℚ) + ((inst.Memory.tdiv 1024 : ℤ) : ℚ)

/-- Unfolding GetNormalizedCost on a present instance type: in exact
rational arithmetic the guarded zero-denominator branch coincides with
the formula, since `p / 0 = 0` in ℚ. -/
lemma getNormalizedCost_some (store : InstanceStore) (p : ℚ) (t : String)
    (inst : Instance) (h : storeFind store t = some inst) :
    GetNormalizedCost store p t =
      (CpuMemRelation * (p / normDenom inst), p / normDenom inst) := by
  simp only [GetNormalizedCost, h, normDenom]
  by_cases h0 : CpuMemRelation * (inst.VCpu : ℚ) + ((inst.Memory.tdiv 1024 : ℤ) : ℚ) = 0
  · simp [h0]
  · simp [h0]

/-- Unfolding GetNormalizedCost on an absent instance type. -/
lemma getNormalizedCost_none (store : InstanceStore) (p : ℚ) (t : String)
    (h : storeFind store t = none) :
    GetNormalizedCost store p t = (0, 0) := by
  simp only [GetNormalizedCost, h]

/-! ## Claim theorems -/

/-- C1: GetNormalizedCost is a pure function of (price, instance type): for a
type present in the store with v vCPU and g = ⌊MiB/1024⌋ GB of memory it
returns memoryCost = p / (7.2·v + g) and vcpuCost = 7.2 · memoryCost; for a
type not present it returns (0, 0); and GetNormalizedCost(0.096, "m5.large")
with (2 vCPU, 8 GiB) yields vcpuCost = 7.2 · 0.096/22.4 and
memoryCost = 0.096/22.4. (Returned pair order is (vcpuCost, memoryCost), as
in the source.) -/
theorem C1_normalized_cost_formula :
    (∀ (store : InstanceStore) (p : ℚ) (t : String) (inst : Instance),
        storeFind store t = some inst →
        GetNormalizedCost store p t =
          (7.2 * (p / (7.2 * (inst.VCpu : ℚ) + ((inst.Memory.tdiv 1024 : ℤ) : ℚ))),
           p / (7.2 * (inst.VCpu : ℚ) + ((inst.Memory.tdiv 1024 : ℤ) : ℚ)))) ∧
    (∀ (store : InstanceStore) (p : ℚ) (t : String),
        storeFind store t = none → GetNormalizedCost store p t = (0, 0)) ∧
    GetNormalizedCost [("m5.large", ⟨8192, 2⟩)] (96/1000) "m5.large"
      = (7.2 * ((96/1000) / 22.4), (96/1000) / 22.4) := by
  refine ⟨?_, ?_, ?_⟩
  · intro store p t inst h
    simpa [normDenom, CpuMemRelation] using getNormalizedCost_some store p t inst h
  · intro store p t h
    exact getNormalizedCost_none store p t h
  · have h : (8192 : ℤ).tdiv 1024 = 8 := by decide
    simp [GetNormalizedCost, storeFind, CpuMemRelation, List.lookup, h]
    norm_num

/-- C1 witness: the general clauses of C1 applied at concrete inputs. -/
theorem C1_normalized_cost_formula_witness :
    GetNormalizedCost [("m5.large", ⟨8192, 2⟩)] (96/1000) "m5.large"
      = (7.2 * ((96/1000) / (7.2 * ((2 : ℤ) : ℚ) + (((8192 : ℤ).tdiv 1024 : ℤ) : ℚ))),
         (96/1000) / (7.2 * ((2 : ℤ) : ℚ) + (((8192 : ℤ).tdiv 1024 : ℤ) : ℚ))) ∧
    GetNormalizedCost [("m5.large", ⟨8192, 2⟩)] (96/1000) "c5.xlarge" = (0, 0) :=
  ⟨C1_normalized_cost_formula.1 [("m5.large", ⟨8192, 2⟩)] (96/1000) "m5.large" ⟨8192, 2⟩ rfl,
   C1_normalized_cost_formula.2.1 [("m5.large", ⟨8192, 2⟩)] (96/1000) "c5.xlarge" rfl⟩

/-- C10: GetNormalizedCost is total and performs no division by a zero
denominator: a store entry with zero vCPU and 0 ≤ memory < 1024 MiB (whose
denominator 7.2·vCPU + ⌊MiB/1024⌋ computes to zero) yields (0, 0); and in
general every result is either the guarded (0, 0) or a quotient whose
denominator is provably nonzero — the rational-arithmetic counterpart of
"never NaN or ±Inf for finite inputs". -/
theorem C10_no_zero_division :
    (∀ (store : InstanceStore) (p : ℚ) (t : String) (inst : Instance),
        storeFind store t = some inst → inst.VCpu = 0 →
        0 ≤ inst.Memory → inst.Memory < 1024 →
        GetNormalizedCost store p t = (0, 0)) ∧
    (∀ (store : InstanceStore) (p : ℚ) (t : String),
        GetNormalizedCost store p t = (0, 0) ∨
        ∃ inst, storeFind store t = some inst ∧ normDenom inst ≠ 0 ∧
          GetNormalizedCost store p t =
            (CpuMemRelation * (p / normDenom inst), p / normDenom inst)) := by
  constructor
  · intro store p t inst h hv hm0 hm1
    have hd : normDenom inst = 0 := by
      simp [normDenom, hv, tdiv_eq_zero_of_nonneg_lt hm0 hm1]
    rw [getNormalizedCost_some store p t inst h, hd]
    simp
  · intro store p t
    cases h : storeFind store t with
    | none => exact Or.inl (getNormalizedCost_none store p t h)
    | some inst =>
      by_cases hd : normDenom inst = 0
      · refine Or.inl ?_
        rw [getNormalizedCost_some store p t inst h, hd]
        simp
      · exact Or.inr ⟨inst, rfl, hd, getNormalizedCost_some store p t inst h⟩

/-- C10 witness: the zero-vCPU, sub-GiB clause applied at a concrete store. -/
theorem C10_no_zero_division_witness :
    GetNormalizedCost [("t0.nano", ⟨512, 0⟩)] 5 "t0.nano" = (0, 0) :=
  C10_no_zero_division.1 [("t0.nano", ⟨512, 0⟩)] 5 "t0.nano" ⟨512, 0⟩ rfl rfl
    (by decide) (by decide)

/-- C2 counterexample: 31536001 seconds is not exactly 1 year (31536000 s)
nor exactly 3 years (94608000 s), yet SecondsToYears returns 1 without an
error — refuting "every duration not exactly 1 or 3 years is an error". -/
theorem C2_counterexample :
    SecondsToYears 31536001 = .ok 1 ∧
    (31536001 : ℤ) ≠ 31536000 ∧ (31536001 : ℤ) ≠ 94608000 :=
  ⟨rfl, by decide, by decide⟩

/-- C2 (amended): SecondsToYears errors exactly when the truncated quotient
seconds/31536000 is neither 1 nor 3 (so whole ranges [1y,2y) and [3y,4y)
are accepted, not only the exact values); 31536000 ↦ 1 and 94608000 ↦ 3
without error; and a plan whose duration is rejected is skipped — it
contributes no records and one tallied error — while processing of the
remaining plans continues. -/
theorem C2_seconds_to_years :
    (∀ s : ℤ, s.tdiv 31536000 ≠ 1 → s.tdiv 31536000 ≠ 3 →
        SecondsToYears s = .error "unexpected savings plan duration") ∧
    (∀ s : ℤ, s.tdiv 31536000 = 1 ∨ s.tdiv 31536000 = 3 →
        SecondsToYears s = .ok (s.tdiv 31536000)) ∧
    SecondsToYears 31536000 = .ok 1 ∧
    SecondsToYears 94608000 = .ok 3 ∧
    (∀ (region : String) (rx : List (String → Bool)) (store : InstanceStore)
        (plan : SavingsPlanRate) (rest : List SavingsPlanRate),
        isMatchAny rx plan.InstanceType = true →
        plan.DurationSeconds.tdiv 31536000 ≠ 1 →
        plan.DurationSeconds.tdiv 31536000 ≠ 3 →
        (processSavingPlans region rx store (plan :: rest)).1 =
          (processSavingPlans region rx store rest).1 ∧
        (processSavingPlans region rx store (plan :: rest)).2 =
          (if (parseDecimal plan.Rate).isNone then 1 else 0) + 1 +
            (processSavingPlans region rx store rest).2) := by
  have herr : ∀ s : ℤ, s.tdiv 31536000 ≠ 1 → s.tdiv 31536000 ≠ 3 →
      SecondsToYears s = .error "unexpected savings plan duration" := by
    intro s h1 h3
    simp [SecondsToYears, h1, h3]
  have hok : ∀ s : ℤ, s.tdiv 31536000 = 1 ∨ s.tdiv 31536000 = 3 →
      SecondsToYears s = .ok (s.tdiv 31536000) := by
    intro s h
    have hcond : ¬(s.tdiv 31536000 ≠ 1 ∧ s.tdiv 31536000 ≠ 3) := by
      rcases h with h | h <;> simp [h]
    simp [SecondsToYears, if_neg hcond]
  refine ⟨herr, hok, rfl, rfl, ?_⟩
  intro region rx store plan rest hm h1 h3
  simp only [processSavingPlans, hm, Bool.not_true, Bool.false_eq_true, if_false,
    herr plan.DurationSeconds h1 h3]
  constructor <;> rfl

/-- C2 witness: the amended clauses at concrete inputs (a 2-year duration is
rejected and its plan is skipped while the list continues). -/
theorem C2_seconds_to_years_witness :
    SecondsToYears 63072000 = .error "unexpected savings plan duration" ∧
    SecondsToYears 40000000 = .ok 1 ∧
    SecondsToYears 100000000 = .ok 3 ∧
    ((processSavingPlans "us-east-1" [fun _ => true] []
        [{ Rate := "0.04", DurationSeconds := 63072000, InstanceType := "m5.large" },
         { Rate := "0.05", DurationSeconds := 31536000, InstanceType := "m5.large" }]).1 =
      (processSavingPlans "us-east-1" [fun _ => true] []
        [{ Rate := "0.05", DurationSeconds := 31536000, InstanceType := "m5.large" }]).1 ∧
     (processSavingPlans "us-east-1" [fun _ => true] []
        [{ Rate := "0.04", DurationSeconds := 63072000, InstanceType := "m5.large" },
         { Rate := "0.05", DurationSeconds := 31536000, InstanceType := "m5.large" }]).2 =
      (if (parseDecimal "0.04").isNone then 1 else 0) + 1 +
        (processSavingPlans "us-east-1" [fun _ => true] []
          [{ Rate := "0.05", DurationSeconds := 31536000, InstanceType := "m5.large" }]).2) :=
  ⟨C2_seconds_to_years.1 63072000 (by decide) (by decide),
   C2_seconds_to_years.2.1 40000000 (Or.inl (by decide)),
   C2_seconds_to_years.2.1 100000000 (Or.inr (by decide)),
   C2_seconds_to_years.2.2.2.2 "us-east-1" [fun _ => true] []
     { Rate := "0.04", DurationSeconds := 63072000, InstanceType := "m5.large" }
     [{ Rate := "0.05", DurationSeconds := 31536000, InstanceType := "m5.large" }]
     rfl (by decide) (by decide)⟩

/-- C3 counterexample: the gate is `time.Now().After(nextScrape)` — strictly
after. At a call arriving exactly AT nextScrape (now = nextScrape = 5) the
gate does not fire: nextScrape is not advanced and no scrape is launched,
refuting the claim for "at or after nextScrape". -/
theorem C3_counterexample :
    (⟨5, 10, [], 0⟩ : ExporterState).nextScrape ≤ (5 : ℤ) ∧
    Collect ⟨5, 10, [], 0⟩ 5 [] = (⟨5, 10, [], 0⟩, []) := by
  constructor
  · norm_num
  · rfl

/-- C3 (amended): whenever Collect is called at a time strictly after
nextScrape, the gate advances nextScrape to now + TTL BEFORE launching the
scrape cycle (the event trace is [advanceNext, launchScrape], in that
order), for every cycle output including the all-workers-fail cycle
(cycleOutput = []). -/
theorem C3_advance_before_launch :
    ∀ (e : ExporterState) (now : ℤ) (cycleOutput : List ScrapeResult),
      e.nextScrape < now →
      (Collect e now cycleOutput).2 =
        [CollectEvent.advanceNext, CollectEvent.launchScrape] ∧
      (Collect e now cycleOutput).1.nextScrape = now + e.cache := by
  intro e now out h
  simp [Collect, h]

/-- C3 witness: the amended theorem at a concrete overdue call with a
failed (empty-output) cycle. -/
theorem C3_advance_before_launch_witness :
    (Collect ⟨0, 10, [], 0⟩ 1 []).2 =
      [CollectEvent.advanceNext, CollectEvent.launchScrape] ∧
    (Collect ⟨0, 10, [], 0⟩ 1 []).1.nextScrape = 1 + 10 :=
  C3_advance_before_launch ⟨0, 10, [], 0⟩ 1 [] (by norm_num)

/-- C4: a Collect call strictly before nextScrape launches no scrape and
leaves the exposed record set (and the whole state) unchanged; two such
calls within the TTL window return identical record sets without launching;
a call after TTL expiry launches exactly one new cycle; and with TTL = 0
every call at a strictly later instant launches a fresh cycle. -/
theorem C4_cache_gate :
    (∀ (e : ExporterState) (now : ℤ) (out : List ScrapeResult),
        now < e.nextScrape → Collect e now out = (e, [])) ∧
    (∀ (e : ExporterState) (t1 t2 : ℤ) (o1 o2 : List ScrapeResult),
        t1 < e.nextScrape → t2 < e.nextScrape →
        (Collect e t1 o1).1.records = e.records ∧
        (Collect (Collect e t1 o1).1 t2 o2).1.records = e.records ∧
        countLaunches (Collect e t1 o1).2 = 0 ∧
        countLaunches (Collect (Collect e t1 o1).1 t2 o2).2 = 0) ∧
    (∀ (e : ExporterState) (now : ℤ) (out : List ScrapeResult),
        e.nextScrape < now → countLaunches (Collect e now out).2 = 1) ∧
    (∀ (e : ExporterState) (t t' : ℤ) (o o' : List ScrapeResult),
        e.cache = 0 → e.nextScrape < t → t < t' →
        countLaunches (Collect e t o).2 = 1 ∧
        countLaunches (Collect (Collect e t o).1 t' o').2 = 1) := by
  have hstale : ∀ (e : ExporterState) (now : ℤ) (out : List ScrapeResult),
      now < e.nextScrape → Collect e now out = (e, []) := by
    intro e now out h
    simp [Collect, not_lt.mpr (le_of_lt h)]
  refine ⟨hstale, ?_, ?_, ?_⟩
  · intro e t1 t2 o1 o2 h1 h2
    rw [hstale e t1 o1 h1]
    rw [hstale e t2 o2 h2]
    exact ⟨rfl, rfl, rfl, rfl⟩
  · intro e now out h
    simp [Collect, h, countLaunches]
  · intro e t t' o o' hc h1 h2
    constructor
    · simp [Collect, h1, countLaunches]
    · have hfire : Collect e t o = ({ e with nextScrape := t + e.cache, records := o, totalScrapes := e.totalScrapes + 1 }, [CollectEvent.advanceNext, CollectEvent.launchScrape]) := by
        simp [Collect, h1]
      rw [hfire]
      have hlt : ({ e with nextScrape := t + e.cache, records := o, totalScrapes := e.totalScrapes + 1 } : ExporterState).nextScrape < t' := by
        show t + e.cache < t'
        rw [hc]
        simpa using h2
      simp [Collect, hlt, countLaunches]

/-- C4 witness: the four clauses at concrete states and instants. -/
theorem C4_cache_gate_witness :
    Collect ⟨10, 7, [], 0⟩ 4 [] = (⟨10, 7, [], 0⟩, []) ∧
    ((Collect ⟨10, 7, [], 0⟩ 4 []).1.records = [] ∧
     (Collect (Collect ⟨10, 7, [], 0⟩ 4 []).1 6 []).1.records = [] ∧
     countLaunches (Collect ⟨10, 7, [], 0⟩ 4 []).2 = 0 ∧
     countLaunches (Collect (Collect ⟨10, 7, [], 0⟩ 4 []).1 6 []).2 = 0) ∧
    countLaunches (Collect ⟨10, 7, [], 0⟩ 11 []).2 = 1 ∧
    (countLaunches (Collect ⟨3, 0, [], 0⟩ 4 []).2 = 1 ∧
     countLaunches (Collect (Collect ⟨3, 0, [], 0⟩ 4 []).1 5 []).2 = 1) :=
  ⟨C4_cache_gate.1 ⟨10, 7, [], 0⟩ 4 [] (by norm_num),
   C4_cache_gate.2.1 ⟨10, 7, [], 0⟩ 4 6 [] [] (by norm_num) (by norm_num),
   C4_cache_gate.2.2.1 ⟨10, 7, [], 0⟩ 11 [] (by norm_num),
   C4_cache_gate.2.2.2 ⟨3, 0, [], 0⟩ 4 5 [] [] rfl (by norm_num) (by norm_num)⟩

/-- C5: in the savings-plan pagination loop, a response with a nil
(`none`) or empty (`some ""`) continuation token ends pagination without
error after that single fetch (the token is never dereferenced — the model
matches on the Option before any use); a response with a non-empty token
causes exactly one further fetch; and the loop terminates: the number of
fetches never exceeds the (finite) upstream response sequence. -/
theorem C5_pagination_termination :
    (∀ (resp : SPResponse) (rest : List (Except Unit SPResponse)),
        resp.NextToken = none →
        fetchSavingPlanPages (.ok resp :: rest) = (resp.SearchResults, 1, 0)) ∧
    (∀ (resp : SPResponse) (rest : List (Except Unit SPResponse)),
        resp.NextToken = some "" →
        fetchSavingPlanPages (.ok resp :: rest) = (resp.SearchResults, 1, 0)) ∧
    (∀ (resp : SPResponse) (rest : List (Except Unit SPResponse)) (tok : String),
        resp.NextToken = some tok → tok ≠ "" →
        (fetchSavingPlanPages (.ok resp :: rest)).2.1 =
          1 + (fetchSavingPlanPages rest).2.1) ∧
    (∀ responses : List (Except Unit SPResponse),
        (fetchSavingPlanPages responses).2.1 ≤ responses.length) := by
  refine ⟨?_, ?_, ?_, ?_⟩
  · intro resp rest h
    simp [fetchSavingPlanPages, h]
  · intro resp rest h
    simp [fetchSavingPlanPages, h]
  · intro resp rest tok h hne
    simp [fetchSavingPlanPages, h, hne]
  · intro responses
    induction responses with
    | nil => simp [fetchSavingPlanPages]
    | cons head tail ih =>
      cases head with
      | error e => simp [fetchSavingPlanPages]
      | ok resp =>
        cases h : resp.NextToken with
        | none => simp [fetchSavingPlanPages, h]
        | some tok =>
          by_cases hne : tok = ""
          · simp [fetchSavingPlanPages, h, hne]
          · have hstep : (fetchSavingPlanPages (.ok resp :: tail)).2.1 =
                1 + (fetchSavingPlanPages tail).2.1 := by
              simp [fetchSavingPlanPages, h, hne]
            rw [hstep, List.length_cons]
            omega

/-- C5 witness: a nil-token page stops after one fetch; a non-empty-token
page fetches exactly once more; fetches are bounded by the sequence length. -/
theorem C5_pagination_termination_witness :
    fetchSavingPlanPages [.ok { SearchResults := [], NextToken := none }]
      = ([], 1, 0) ∧
    fetchSavingPlanPages [.ok { SearchResults := [], NextToken := some "" }]
      = ([], 1, 0) ∧
    (fetchSavingPlanPages [.ok { SearchResults := [], NextToken := some "page2" },
                           .ok { SearchResults := [], NextToken := none }]).2.1 =
      1 + (fetchSavingPlanPages [(.ok { SearchResults := [], NextToken := none } :
            Except Unit SPResponse)]).2.1 ∧
    (fetchSavingPlanPages [.ok { SearchResults := [], NextToken := some "page2" },
                           .ok { SearchResults := [], NextToken := none }]).2.1 ≤ 2 :=
  ⟨C5_pagination_termination.1 { SearchResults := [], NextToken := none } [] rfl,
   C5_pagination_termination.2.1 { SearchResults := [], NextToken := some "" } [] rfl,
   C5_pagination_termination.2.2.1 { SearchResults := [], NextToken := some "page2" }
     [.ok { SearchResults := [], NextToken := none }] "page2" rfl (by decide),
   C5_pagination_termination.2.2.2
     [.ok { SearchResults := [], NextToken := some "page2" },
      .ok { SearchResults := [], NextToken := none }]⟩

/-- C6: the cloud-B scraper never issues a request to a next-page link
whose scheme or host differs from the configured base endpoint (every
followed link has the base's scheme and host); a page carrying such a link
ends pagination after its own fetch, returning the items accumulated so far
without error; and a next-page link with matching scheme and host is
followed (exactly one further fetch). -/
theorem C6_next_link_origin_validated :
    (∀ (baseURL : Link) (pages : List (Except Unit AzureRetailPriceResponse)) (l : Link),
        l ∈ (getVMPrices baseURL pages).2.2 →
        l.scheme = baseURL.scheme ∧ l.host = baseURL.host) ∧
    (∀ (baseURL : Link) (page : AzureRetailPriceResponse)
        (rest : List (Except Unit AzureRetailPriceResponse)) (l : Link),
        page.NextPageLink = some l →
        (l.host ≠ baseURL.host ∨ l.scheme ≠ baseURL.scheme) →
        getVMPrices baseURL (.ok page :: rest) =
          (.ok (page.Items.filter keepAzureItem), 1, [])) ∧
    (∀ (baseURL : Link) (page : AzureRetailPriceResponse)
        (rest : List (Except Unit AzureRetailPriceResponse)) (l : Link),
        page.NextPageLink = some l →
        l.host = baseURL.host → l.scheme = baseURL.scheme →
        (getVMPrices baseURL (.ok page :: rest)).2.1 =
          1 + (getVMPrices baseURL rest).2.1 ∧
        l ∈ (getVMPrices baseURL (.ok page :: rest)).2.2) := by
  refine ⟨?_, ?_, ?_⟩
  · intro baseURL pages
    induction pages with
    | nil => intro l hl; simp [getVMPrices] at hl
    | cons head tail ih =>
      intro l hl
      cases head with
      | error e => simp [getVMPrices] at hl
      | ok page =>
        cases hnp : page.NextPageLink with
        | none => simp [getVMPrices, validateNextPageLink, hnp] at hl
        | some u =>
          by_cases hb : ¬u.host = baseURL.host ∨ ¬u.scheme = baseURL.scheme
          · simp only [getVMPrices, validateNextPageLink, hnp, if_pos hb] at hl
            simp at hl
          · push_neg at hb
            have hcond : ¬(¬u.host = baseURL.host ∨ ¬u.scheme = baseURL.scheme) := by
              simp [hb.1, hb.2]
            simp only [getVMPrices, validateNextPageLink, hnp, if_neg hcond] at hl
            rcases List.mem_cons.mp hl with rfl | hmem
            · exact ⟨hb.2, hb.1⟩
            · exact ih l hmem
  · intro baseURL page rest l hnp hb
    have hcond : ¬l.host = baseURL.host ∨ ¬l.scheme = baseURL.scheme := hb
    simp [getVMPrices, validateNextPageLink, hnp, if_pos hcond]
  · intro baseURL page rest l hnp hh hs
    have hcond : ¬(¬l.host = baseURL.host ∨ ¬l.scheme = baseURL.scheme) := by
      simp [hh, hs]
    constructor <;> simp [getVMPrices, validateNextPageLink, hnp, if_neg hcond]

/-- C6 witness: a cross-origin next link halts pagination with the first
page's items and no error; a same-origin link is followed. -/
theorem C6_next_link_origin_validated_witness :
    getVMPrices ⟨"https", "prices.azure.com", "/api/retail/prices"⟩
      [.ok { Items := [], NextPageLink := some ⟨"https", "evil.example.com", "/x"⟩ },
       .ok { Items := [], NextPageLink := none }] = (.ok [], 1, []) ∧
    ((getVMPrices ⟨"https", "prices.azure.com", "/api/retail/prices"⟩
        [.ok { Items := [], NextPageLink := some ⟨"https", "prices.azure.com", "/page2"⟩ },
         .ok { Items := [], NextPageLink := none }]).2.1 =
      1 + (getVMPrices ⟨"https", "prices.azure.com", "/api/retail/prices"⟩
        [(.ok { Items := [], NextPageLink := none } :
          Except Unit AzureRetailPriceResponse)]).2.1 ∧
     (⟨"https", "prices.azure.com", "/page2"⟩ : Link) ∈
       (getVMPrices ⟨"https", "prices.azure.com", "/api/retail/prices"⟩
        [.ok { Items := [], NextPageLink := some ⟨"https", "prices.azure.com", "/page2"⟩ },
         .ok { Items := [], NextPageLink := none }]).2.2) :=
  ⟨C6_next_link_origin_validated.2.1 ⟨"https", "prices.azure.com", "/api/retail/prices"⟩
     { Items := [], NextPageLink := some ⟨"https", "evil.example.com", "/x"⟩ }
     [.ok { Items := [], NextPageLink := none }] ⟨"https", "evil.example.com", "/x"⟩
     rfl (Or.inl (by decide)),
   C6_next_link_origin_validated.2.2 ⟨"https", "prices.azure.com", "/api/retail/prices"⟩
     { Items := [], NextPageLink := some ⟨"https", "prices.azure.com", "/page2"⟩ }
     [.ok { Items := [], NextPageLink := none }] ⟨"https", "prices.azure.com", "/page2"⟩
     rfl rfl rfl⟩

/-- doWithRetryAux makes at most `r` attempts. -/
lemma doWithRetryAux_attempts_le (outcomes : ℕ → HttpOutcome) :
    ∀ (r a : ℕ), (doWithRetryAux outcomes a r).2.1 ≤ r := by
  intro r
  induction r with
  | zero => intro a; simp [doWithRetryAux]
  | succ n ih =>
    intro a
    cases h : outcomes a with
    | transportError =>
      simp only [doWithRetryAux, h]
      have := ih (a + 1)
      omega
    | response s =>
      by_cases hr : s = 429 ∨ s ≥ 500
      · simp only [doWithRetryAux, h, if_pos hr]
        have := ih (a + 1)
        omega
      · simp only [doWithRetryAux, h, if_neg hr]
        by_cases h200 : s ≠ 200
        · simp only [if_pos h200]
          omega
        · simp only [if_neg h200]
          omega

/-- doWithRetryAux on a retryable outcome: one attempt, one backoff sleep
of 2^attempt seconds, then the loop continues at the next attempt index. -/
lemma doWithRetryAux_retry_step (outcomes : ℕ → HttpOutcome) (a r : ℕ)
    (h : isRetryable (outcomes a) = true) :
    doWithRetryAux outcomes a (r + 1) =
      ((doWithRetryAux outcomes (a + 1) r).1,
       (doWithRetryAux outcomes (a + 1) r).2.1 + 1,
       2 ^ a :: (doWithRetryAux outcomes (a + 1) r).2.2) := by
  cases hoc : outcomes a with
  | transportError => simp [doWithRetryAux, hoc]
  | response s =>
    have hr : s = 429 ∨ s ≥ 500 := by
      simpa [isRetryable, hoc] using h
    simp [doWithRetryAux, hoc, if_pos hr]

/-- C7: each cloud-B fetch makes at most 3 attempts; an upstream answering
HTTP 500 on every attempt yields exactly 3 attempts with backoff sleeps of
1, 2, 4 seconds and a propagated error; an upstream failing retryably twice
(transport error, 429 or 5xx) then answering 200 yields data after exactly
3 attempts; a non-retryable non-200 4xx status fails after exactly one
attempt with no retry sleep; and a second attempt only ever happens when
the first outcome was retryable. -/
theorem C7_retry_policy :
    (∀ outcomes : ℕ → HttpOutcome, (doWithRetry outcomes).2.1 ≤ 3) ∧
    (∀ outcomes : ℕ → HttpOutcome,
        (∀ i, i < 3 → outcomes i = .response 500) →
        doWithRetry outcomes = (.error (), 3, [1, 2, 4])) ∧
    (∀ outcomes : ℕ → HttpOutcome,
        isRetryable (outcomes 0) = true → isRetryable (outcomes 1) = true →
        outcomes 2 = .response 200 →
        (doWithRetry outcomes).1 = .ok 200 ∧ (doWithRetry outcomes).2.1 = 3) ∧
    (∀ (outcomes : ℕ → HttpOutcome) (s : ℕ),
        400 ≤ s → s < 500 → s ≠ 429 → outcomes 0 = .response s →
        doWithRetry outcomes = (.error (), 1, [])) ∧
    (∀ outcomes : ℕ → HttpOutcome,
        2 ≤ (doWithRetry outcomes).2.1 → isRetryable (outcomes 0) = true) := by
  refine ⟨?_, ?_, ?_, ?_, ?_⟩
  · intro oc
    exact doWithRetryAux_attempts_le oc 3 0
  · intro oc h
    have h0 := h 0 (by norm_num)
    have h1 := h 1 (by norm_num)
    have h2 := h 2 (by norm_num)
    norm_num [doWithRetry, maxRetries, doWithRetryAux, h0, h1, h2]
  · intro oc h0 h1 h2
    have e0 := doWithRetryAux_retry_step oc 0 2 h0
    have e1 := doWithRetryAux_retry_step oc 1 1 h1
    have e2 : doWithRetryAux oc 2 1 = (.ok 200, 1, []) := by
      simp [doWithRetryAux, h2]
    constructor
    · show (doWithRetryAux oc 0 3).1 = Except.ok 200
      rw [show (3 : ℕ) = 2 + 1 from rfl, e0]
      rw [show (2 : ℕ) = 1 + 1 from rfl, e1, e2]
    · show (doWithRetryAux oc 0 3).2.1 = 3
      rw [show (3 : ℕ) = 2 + 1 from rfl, e0]
      simp only
      rw [show (2 : ℕ) = 1 + 1 from rfl, e1, e2]
  · intro oc s h400 h500 h429 h0
    have hr : ¬(s = 429 ∨ s ≥ 500) := by
      push_neg
      exact ⟨h429, by omega⟩
    have h200 : s ≠ 200 := by omega
    simp [doWithRetry, maxRetries, doWithRetryAux, h0, if_neg hr, if_pos h200]
  · intro oc h
    by_contra hnr
    have hr : isRetryable (oc 0) = false := by
      cases hb : isRetryable (oc 0)
      · rfl
      · exact absurd hb hnr
    cases hoc : oc 0 with
    | transportError => simp [isRetryable, hoc] at hr
    | response s =>
      have hs0 : ¬(s = 429) ∧ ¬(500 ≤ s) := by
        have h' := hr
        simp [isRetryable, hoc] at h'
        exact ⟨h'.1, by omega⟩
      have hs : ¬(s = 429 ∨ s ≥ 500) := by
        push_neg
        exact ⟨hs0.1, by omega⟩
      by_cases h200 : s ≠ 200
      · have hcomp : doWithRetry oc = (.error (), 1, []) := by
          simp [doWithRetry, maxRetries, doWithRetryAux, hoc, if_neg hs, if_pos h200]
        rw [hcomp] at h
        norm_num at h
      · have hcomp : doWithRetry oc = (.ok s, 1, []) := by
          simp [doWithRetry, maxRetries, doWithRetryAux, hoc, if_neg hs, if_neg h200]
        rw [hcomp] at h
        norm_num at h

/-- C7 witness: the clauses at concrete outcome sequences. -/
theorem C7_retry_policy_witness :
    (doWithRetry (fun _ => .response 500)).2.1 ≤ 3 ∧
    doWithRetry (fun _ => .response 500) = (.error (), 3, [1, 2, 4]) ∧
    ((doWithRetry (fun i => if i = 2 then .response 200 else .transportError)).1 =
        .ok 200 ∧
     (doWithRetry (fun i => if i = 2 then .response 200 else .transportError)).2.1 = 3) ∧
    doWithRetry (fun _ => .response 404) = (.error (), 1, []) :=
  ⟨C7_retry_policy.1 (fun _ => .response 500),
   C7_retry_policy.2.1 (fun _ => .response 500) (fun i _ => rfl),
   C7_retry_policy.2.2.1 (fun i => if i = 2 then .response 200 else .transportError)
     rfl rfl rfl,
   C7_retry_policy.2.2.2.1 (fun _ => .response 404) 404 (by norm_num) (by norm_num)
     (by norm_num) rfl⟩

/-- C8 counterexample: the cloud-B (Azure) on-demand scraper disables the
instance-type filter when the configured regex set is empty (the
`len(regexes) > 0 &&` guard): with the empty filter set, an item whose type
matches none of the configured patterns (vacuously, there are none) IS
emitted — refuting the claim for "every filter set including the empty set
and every scraper". -/
theorem C8_counterexample :
    isMatchAny [] "Standard_D2s_v5" = false ∧
    getAzureOnDemandPricing "eastus" [] ["Linux"]
        [{ RetailPrice := 96/1000, ArmSkuName := "Standard_D2s_v5",
           ProductName := "Virtual Machines Dv5 Series", MeterName := "D2s v5",
           UnitOfMeasure := "1 Hour" }] =
      [{ Name := "azure_vm", Value := 96/1000, Region := "eastus",
         InstanceType := "Standard_D2s_v5", InstanceLifecycle := "ondemand",
         OperatingSystem := "Linux" }] := by
  constructor
  · rfl
  · rfl

/-- C8 (amended): a record whose instance type matches none of the
configured regex patterns is never emitted by the AWS spot, AWS bulk
on-demand and AWS commitment-plan scrapers — for every filter set
including the empty one (an empty set emits nothing there) — and by the
cloud-B scraper for every NON-empty filter set; for the cloud-B scraper an
empty filter set disables type filtering instead. -/
theorem C8_regex_filter :
    (∀ (region : String) (rx : List (String → Bool)) (store : InstanceStore)
        (entries : List SpotPrice) (r : ScrapeResult),
        r ∈ (processSpotPage region rx store entries).1 →
        isMatchAny rx r.InstanceType = true) ∧
    (∀ (region : String) (oss : List String) (rx : List (String → Bool))
        (store : InstanceStore) (azs : List String) (terms : BulkOnDemandTerms)
        (products : List BulkProduct) (r : ScrapeResult),
        r ∈ (processBulkProducts region oss rx store azs terms products).1 →
        isMatchAny rx r.InstanceType = true) ∧
    (∀ (region : String) (rx : List (String → Bool)) (store : InstanceStore)
        (plans : List SavingsPlanRate) (r : ScrapeResult),
        r ∈ (processSavingPlans region rx store plans).1 →
        isMatchAny rx r.InstanceType = true) ∧
    (∀ (region : String) (rx : List (String → Bool)) (oss : List String),
        rx ≠ [] →
        ∀ (items : List AzureRetailPriceItem) (r : ScrapeResult),
        r ∈ getAzureOnDemandPricing region rx oss items →
        isMatchAny rx r.InstanceType = true) := by
  refine ⟨?_, ?_, ?_, ?_⟩
  · intro region rx store entries
    induction entries with
    | nil => intro r hr; simp [processSpotPage] at hr
    | cons price rest ih =>
      intro r hr
      simp only [processSpotPage] at hr
      by_cases hm : isMatchAny rx price.InstanceType = true
      · rw [if_neg (not_not_intro hm)] at hr
        cases hp : parseDecimal price.SpotPrice with
        | none =>
          rw [hp] at hr
          exact ih r hr
        | some value =>
          rw [hp] at hr
          simp only [List.mem_append, List.mem_cons, List.not_mem_nil, or_false] at hr
          rcases hr with (rfl | rfl | rfl) | hmem
          · exact hm
          · exact hm
          · exact hm
          · exact ih r hmem
      · rw [if_pos hm] at hr
        exact ih r hr
  · intro region oss rx store azs terms products
    induction products with
    | nil => intro r hr; simp [processBulkProducts] at hr
    | cons product rest ih =>
      intro r hr
      simp only [processBulkProducts] at hr
      by_cases h1 : attr product.Attributes "capacitystatus" ≠ "Used"
      · rw [if_pos h1] at hr; exact ih r hr
      rw [if_neg h1] at hr
      by_cases h2 : attr product.Attributes "tenancy" ≠ "Shared"
      · rw [if_pos h2] at hr; exact ih r hr
      rw [if_neg h2] at hr
      by_cases h3 : attr product.Attributes "preInstalledSw" ≠ "NA"
      · rw [if_pos h3] at hr; exact ih r hr
      rw [if_neg h3] at hr
      by_cases h4 : contains oss (attr product.Attributes "operatingSystem") = true
      · rw [if_neg (not_not_intro h4)] at hr
        by_cases hm : isMatchAny rx (attr product.Attributes "instanceType") = true
        · rw [if_neg (not_not_intro hm)] at hr
          split at hr
          · exact ih r hr
          · split at hr
            · exact ih r hr
            · simp only [List.mem_append, List.mem_flatMap, List.mem_cons,
                List.not_mem_nil, or_false] at hr
              rcases hr with ⟨az, _, rfl | rfl | rfl⟩ | hmem
              · exact hm
              · exact hm
              · exact hm
              · exact ih r hmem
        · rw [if_pos hm] at hr
          exact ih r hr
      · rw [if_pos h4] at hr
        exact ih r hr
  · intro region rx store plans
    induction plans with
    | nil => intro r hr; simp [processSavingPlans] at hr
    | cons plan rest ih =>
      intro r hr
      simp only [processSavingPlans] at hr
      by_cases hm : isMatchAny rx plan.InstanceType = true
      · rw [if_neg (not_not_intro hm)] at hr
        cases hy : SecondsToYears plan.DurationSeconds with
        | error e =>
          rw [hy] at hr
          exact ih r hr
        | ok years =>
          rw [hy] at hr
          simp only [List.mem_append, List.mem_cons, List.not_mem_nil, or_false] at hr
          rcases hr with (rfl | rfl | rfl) | hmem
          · exact hm
          · exact hm
          · exact hm
          · exact ih r hmem
      · rw [if_pos hm] at hr
        exact ih r hr
  · intro region rx oss hrx items
    induction items with
    | nil => intro r hr; simp [getAzureOnDemandPricing] at hr
    | cons item rest ih =>
      intro r hr
      simp only [getAzureOnDemandPricing] at hr
      by_cases hm : isMatchAny rx item.ArmSkuName = true
      · rw [if_neg (fun hc => hc.2 hm)] at hr
        by_cases hos : contains oss (classifyAzureOS item.ProductName) = true
        · rw [if_neg (not_not_intro hos)] at hr
          rcases List.mem_cons.mp hr with rfl | hmem
          · exact hm
          · exact ih r hmem
        · rw [if_pos hos] at hr
          exact ih r hr
      · have hlen : rx.length > 0 := List.length_pos.mpr hrx
        rw [if_pos ⟨hlen, hm⟩] at hr
        exact ih r hr

/-- C8 witness: the surviving clauses at concrete inputs — a non-empty
filter only lets matching types through each scraper. -/
theorem C8_regex_filter_witness :
    (∀ r ∈ (processSpotPage "us-east-1" [fun s => s = "m5.large"] []
        [{ InstanceType := "m5.large", SpotPrice := "0.05" },
         { InstanceType := "c5.xlarge", SpotPrice := "0.10" }]).1,
      isMatchAny [fun s => s = "m5.large"] r.InstanceType = true) ∧
    (∀ r ∈ getAzureOnDemandPricing "eastus" [fun s => s = "Standard_D2s_v5"] ["Linux"]
        [{ RetailPrice := 96/1000, ArmSkuName := "Standard_D2s_v5",
           ProductName := "Dv5 Series", MeterName := "D2s v5",
           UnitOfMeasure := "1 Hour" }],
      isMatchAny [fun s => s = "Standard_D2s_v5"] r.InstanceType = true) :=
  ⟨fun r hr => C8_regex_filter.1 "us-east-1" [fun s => s = "m5.large"] []
      [{ InstanceType := "m5.large", SpotPrice := "0.05" },
       { InstanceType := "c5.xlarge", SpotPrice := "0.10" }] r hr,
   fun r hr => C8_regex_filter.2.2.2 "eastus" [fun s => s = "Standard_D2s_v5"] ["Linux"]
      (by simp)
      [{ RetailPrice := 96/1000, ArmSkuName := "Standard_D2s_v5",
         ProductName := "Dv5 Series", MeterName := "D2s v5",
         UnitOfMeasure := "1 Hour" }] r hr⟩

/-- C9 (code bug): on a price-string parse failure the spot scraper tallies
the error and SKIPS the entry (no records), as the claim states; but the
commitment-plan scraper, after tallying the error, falls through without a
`continue` and still emits the entry's three records, carrying the Go zero
value 0 as the price — diverging from the claim's "skips that entry,
emitting no record for it". -/
theorem C9_parse_failure_divergence :
    processSpotPage "us-east-1" [fun _ => true] [("m5.large", ⟨8192, 2⟩)]
        [{ InstanceType := "m5.large", SpotPrice := "not-a-number",
           AvailabilityZone := "us-east-1a", ProductDescription := "Linux/UNIX" }]
      = ([], 1) ∧
    (processSavingPlans "us-east-1" [fun _ => true] [("m5.large", ⟨8192, 2⟩)]
        [{ Rate := "not-a-number", DurationSeconds := 31536000,
           InstanceType := "m5.large" }]).2 = 1 ∧
    (processSavingPlans "us-east-1" [fun _ => true] [("m5.large", ⟨8192, 2⟩)]
        [{ Rate := "not-a-number", DurationSeconds := 31536000,
           InstanceType := "m5.large" }]).1.length = 3 ∧
    (∀ r ∈ (processSavingPlans "us-east-1" [fun _ => true] [("m5.large", ⟨8192, 2⟩)]
        [{ Rate := "not-a-number", DurationSeconds := 31536000,
           InstanceType := "m5.large" }]).1, r.Value = 0) := by
  refine ⟨rfl, rfl, rfl, ?_⟩
  have hparse : parseDecimal "not-a-number" = none := rfl
  have h8 : (8192 : ℤ).tdiv 1024 = 8 := by decide
  intro r hr
  fin_cases hr <;>
    norm_num [hparse, h8, GetNormalizedCost, storeFind, List.lookup, CpuMemRelation]

end CloudPrice
